import Mathlib

set_option maxRecDepth 40000
set_option maxHeartbeats 1000000

/-!
Formal model of the UDP camera-pose ingestion subsystem of the
threeDhierarchy viewer application (source file: apps main translation
unit).  The subsystem consists of

  * a global shared slot holding the latest camera pose
    (lines 39 to 49 of the source: the CameraTransform struct, the
    shared pointer cameraTransform, the mutex, and the two atomic
    booleans running and newData),
  * the listener function runUDPServer (lines 73 to 117), which binds a
    UDP socket to port 4444 and loops receiving datagrams, parsing each
    as JSON and publishing the decoded pose,
  * the per-frame consume step of the main render loop
    (lines 243 to 247), which checks the newData flag and applies the
    stored pose to the camera handler.

Numeric fields are modelled as exact rationals; the source uses 32-bit
floats, but every property considered here involves only small exactly
representable values, so rounding plays no role.

The JSON library used by the source (nlohmann json) is third-party
code; parseJson below models its parse function on the JSON fragment
the subsystem exercises: objects, arrays, strings with the common
escapes, numbers with optional sign, fraction and exponent, and the
three literals.  Unicode escape sequences and the rejection of leading
zeros are not modelled; no property below depends on them.  A parse
failure models the parse_error exception thrown by the library, and a
field access of the wrong type models the type_error exception thrown
when a value is converted to float.
-/

/-- JSON values as produced by the modelled parse function. -/
inductive Json where
  | null
  | bool (b : Bool)
  | num (q : ℚ)
  | str (s : String)
  | arr (elems : List Json)
  | obj (fields : List (String × Json))

/-- Whitespace skipping, as in the JSON grammar. -/
def skipWs : List Char → List Char
  | c :: cs =>
    if c = ' ' ∨ c = '\n' ∨ c = '\t' ∨ c = '\r' then skipWs cs else c :: cs
  | [] => []

/-- The opening brace character (written by code point to keep JSON
punctuation out of character literals). -/
def openBraceChar : Char := Char.ofNat 123

/-- The closing brace character. -/
def closeBraceChar : Char := Char.ofNat 125

/-- Value of a run of decimal digits. -/
def digitsVal (ds : List Char) : Nat :=
  ds.foldl (fun acc c => acc * 10 + (c.toNat - 48)) 0

/-- Digits of the fractional part of a JSON number, empty when there
is no fraction. -/
def parseFracDigits (cs : List Char) : Except String (List Char × List Char) :=
  match cs with
  | c :: rest =>
    if c = '.' then
      match rest.span Char.isDigit with
      | (fs, rest2) =>
        if fs.isEmpty then Except.error "invalid number"
        else Except.ok (fs, rest2)
    else Except.ok ([], cs)
  | [] => Except.ok ([], cs)

/-- Exponent of a JSON number: its sign and digits, with no digits
when there is no exponent. -/
def parseExpPart (cs : List Char) :
    Except String ((Bool × List Char) × List Char) :=
  match cs with
  | c :: rest =>
    if c = 'e' ∨ c = 'E' then
      match
        (match rest with
         | d :: r2 =>
           if d = '-' then (true, r2)
           else if d = '+' then (false, r2)
           else (false, rest)
         | [] => (false, rest)) with
      | (eneg, rest1) =>
        match rest1.span Char.isDigit with
        | (es, rest2) =>
          if es.isEmpty then Except.error "invalid number"
          else Except.ok ((eneg, es), rest2)
    else Except.ok ((false, []), cs)
  | [] => Except.ok ((false, []), cs)

/-- JSON number: optional minus sign, digits, optional fraction and
exponent.  The exact rational value is assembled with integer
arithmetic and a single normalising mkRat. -/
def parseNumber (cs : List Char) : Except String (ℚ × List Char) :=
  match
    (match cs with
     | c :: rest => if c = '-' then (true, rest) else (false, cs)
     | [] => (false, cs)) with
  | (neg, cs1) =>
    match cs1.span Char.isDigit with
    | (ds, cs2) =>
      if ds.isEmpty then Except.error "invalid number"
      else
        match parseFracDigits cs2 with
        | Except.error e => Except.error e
        | Except.ok (fs, cs3) =>
          match parseExpPart cs3 with
          | Except.error e => Except.error e
          | Except.ok ((eneg, es), cs4) =>
            let mantissa : Nat := digitsVal (ds ++ fs)
            let snum : Int := if neg then -(mantissa : Int) else (mantissa : Int)
            let e : Nat := digitsVal es
            let q : ℚ :=
              if eneg then mkRat snum (10 ^ (fs.length + e))
              else mkRat (snum * ((10 : Nat) ^ e : Nat)) (10 ^ fs.length)
            Except.ok (q, cs4)

/-- Translation of a single escape sequence inside a JSON string. -/
def unescapeChar (c : Char) : Option Char :=
  if c = '"' then some '"'
  else if c = '\\' then some '\\'
  else if c = '/' then some '/'
  else if c = 'b' then some (Char.ofNat 8)
  else if c = 'f' then some (Char.ofNat 12)
  else if c = 'n' then some '\n'
  else if c = 'r' then some '\r'
  else if c = 't' then some '\t'
  else none

/-- Content of a JSON string after its opening quote: returns the
decoded characters and the remaining input after the closing quote. -/
def parseStringChars : List Char → Option (List Char × List Char)
  | [] => none
  | c :: cs =>
    if c = '"' then some ([], cs)
    else if c = '\\' then
      match cs with
      | [] => none
      | e :: cs2 =>
        match unescapeChar e with
        | none => none
        | some ch =>
          match parseStringChars cs2 with
          | none => none
          | some (content, rest) => some (ch :: content, rest)
    else
      match parseStringChars cs with
      | none => none
      | some (content, rest) => some (c :: content, rest)

/-- Strip an expected literal such as rue, alse or ull. -/
def stripLit : List Char → List Char → Option (List Char)
  | [], cs => some cs
  | l :: ls, c :: rest => if c = l then stripLit ls rest else none
  | _ :: _, [] => none

/-- Insert a key into an object, overwriting an existing binding, as
the library map does for duplicate keys. -/
def objInsert (fields : List (String × Json)) (k : String) (v : Json) :
    List (String × Json) :=
  match fields with
  | [] => [(k, v)]
  | (k0, v0) :: rest =>
    if k0 = k then (k0, v) :: rest else (k0, v0) :: objInsert rest k v

/-- Pending parse obligation: a whole value, the inside of an object
after its opening brace, the member list of an object, the inside of
an array after its opening bracket, or the element list of an array.
The parser is one function structurally recursive on a fuel counter so
that it evaluates inside the kernel. -/
inductive PTask where
  | value (cs : List Char)
  | objRest (cs : List Char)
  | members (acc : List (String × Json)) (cs : List Char)
  | arrRest (cs : List Char)
  | elems (acc : List Json) (cs : List Char)

/-- Recursive-descent JSON parsing.  The fuel argument bounds the
recursion; parseJson supplies more fuel than any input can consume. -/
def parseStep : Nat → PTask → Except String (Json × List Char)
  | 0, _ => Except.error "recursion limit"
  | Nat.succ fuel, PTask.value cs =>
    match skipWs cs with
    | [] => Except.error "unexpected end of input"
    | c :: rest =>
      if c = '"' then
        match parseStringChars rest with
        | some (content, rest2) => Except.ok (Json.str (String.mk content), rest2)
        | none => Except.error "invalid string"
      else if c = openBraceChar then parseStep fuel (PTask.objRest rest)
      else if c = '[' then parseStep fuel (PTask.arrRest rest)
      else if c = 't' then
        match stripLit ['r', 'u', 'e'] rest with
        | some rest2 => Except.ok (Json.bool true, rest2)
        | none => Except.error "invalid literal"
      else if c = 'f' then
        match stripLit ['a', 'l', 's', 'e'] rest with
        | some rest2 => Except.ok (Json.bool false, rest2)
        | none => Except.error "invalid literal"
      else if c = 'n' then
        match stripLit ['u', 'l', 'l'] rest with
        | some rest2 => Except.ok (Json.null, rest2)
        | none => Except.error "invalid literal"
      else if c.isDigit ∨ c = '-' then
        match parseNumber (c :: rest) with
        | Except.ok (q, rest2) => Except.ok (Json.num q, rest2)
        | Except.error e => Except.error e
      else Except.error "unexpected character"
  | Nat.succ fuel, PTask.objRest cs =>
    match skipWs cs with
    | [] => Except.error "unexpected end of input"
    | c :: rest =>
      if c = closeBraceChar then Except.ok (Json.obj [], rest)
      else parseStep fuel (PTask.members [] (c :: rest))
  | Nat.succ fuel, PTask.members acc cs =>
    match skipWs cs with
    | [] => Except.error "unexpected end of input"
    | c :: rest =>
      if c = '"' then
        match parseStringChars rest with
        | none => Except.error "invalid string"
        | some (key, rest2) =>
          match skipWs rest2 with
          | ':' :: rest3 =>
            match parseStep fuel (PTask.value rest3) with
            | Except.error e => Except.error e
            | Except.ok (v, rest4) =>
              let acc2 := objInsert acc (String.mk key) v
              match skipWs rest4 with
              | ',' :: rest5 => parseStep fuel (PTask.members acc2 rest5)
              | c2 :: rest5 =>
                if c2 = closeBraceChar then Except.ok (Json.obj acc2, rest5)
                else Except.error "expected comma or closing brace"
              | [] => Except.error "unexpected end of input"
          | _ => Except.error "expected colon"
      else Except.error "expected string key"
  | Nat.succ fuel, PTask.arrRest cs =>
    match skipWs cs with
    | [] => Except.error "unexpected end of input"
    | ']' :: rest => Except.ok (Json.arr [], rest)
    | c :: rest => parseStep fuel (PTask.elems [] (c :: rest))
  | Nat.succ fuel, PTask.elems acc cs =>
    match parseStep fuel (PTask.value cs) with
    | Except.error e => Except.error e
    | Except.ok (v, rest) =>
      match skipWs rest with
      | ',' :: rest2 => parseStep fuel (PTask.elems (acc ++ [v]) rest2)
      | ']' :: rest2 => Except.ok (Json.arr (acc ++ [v]), rest2)
      | _ => Except.error "expected comma or closing bracket"

/-- Model of json parse (line 92 of the source): parse one value and
require the whole input to be consumed.  An error models the
parse_error exception. -/
def parseJson (s : String) : Except String Json :=
  match parseStep (4 * s.length + 8) (PTask.value s.toList) with
  | Except.error e => Except.error e
  | Except.ok (j, rest) =>
    match skipWs rest with
    | [] => Except.ok j
    | _ => Except.error "unexpected trailing characters"

/-!
Field access and numeric conversion, modelling the expressions
jsonData at position at x and so on (lines 95 to 105 of the source).
The source uses the non-const bracket operator: on an object a missing
key yields a null element, on a null value it also yields a null
element, and on any other type it throws type_error; converting a
non-number to float throws type_error.  Both exceptions are modelled
as errors.
-/

/-- Model of the non-const bracket operator of the JSON library. -/
def jsonAtKey (j : Json) (k : String) : Except String Json :=
  match j with
  | Json.obj fields => Except.ok ((fields.lookup k).getD Json.null)
  | Json.null => Except.ok Json.null
  | _ => Except.error "cannot use the bracket operator with this type"

/-- Model of the implicit conversion of a JSON value to float. -/
def jsonGetNumber : Json → Except String ℚ
  | Json.num q => Except.ok q
  | _ => Except.error "type must be number"

/-- Three-component float vector (sibr Vector3f); components modelled
as exact rationals. -/
structure Vector3f where
  x : ℚ
  y : ℚ
  z : ℚ
deriving DecidableEq

/-- Float quaternion (sibr Quaternionf), in the w x y z order used by
the constructor call at lines 100 to 105. -/
structure Quaternionf where
  w : ℚ
  x : ℚ
  y : ℚ
  z : ℚ
deriving DecidableEq

/-- Camera transform record (lines 39 to 42 of the source). -/
structure CameraTransform where
  position : Vector3f
  rotation : Quaternionf
deriving DecidableEq

/-- Decoding of one datagram payload: parse as JSON (line 92), then
read the seven numeric fields (lines 95 to 105).  Any parse error or
field of the wrong type is an exception escaping to the catch outside
the receive loop; this is modelled as an error result. -/
def decodePayload (payload : String) : Except String CameraTransform := do
  let jsonData ← parseJson payload
  let posObj ← jsonAtKey jsonData "position"
  let px ← jsonGetNumber (← jsonAtKey posObj "x")
  let py ← jsonGetNumber (← jsonAtKey posObj "y")
  let pz ← jsonGetNumber (← jsonAtKey posObj "z")
  let rotObj ← jsonAtKey jsonData "rotation"
  let rw ← jsonGetNumber (← jsonAtKey rotObj "w")
  let rx ← jsonGetNumber (← jsonAtKey rotObj "x")
  let ry ← jsonGetNumber (← jsonAtKey rotObj "y")
  let rz ← jsonGetNumber (← jsonAtKey rotObj "z")
  Except.ok { position := { x := px, y := py, z := pz },
              rotation := { w := rw, x := rx, y := ry, z := rz } }

deriving instance DecidableEq for Except

/-- True when decoding the payload fails. -/
def decodeFails (payload : String) : Bool :=
  match decodePayload payload with
  | Except.error _ => true
  | Except.ok _ => false

/-!
Shared state crossing the thread boundary (lines 44 to 49 of the
source): the shared pointer cameraTransform (none models nullptr), the
atomic newData flag, and the atomic running flag.  The mutex
cameraTransformMutex is not part of the state here; the lock discipline
is modelled separately by the action traces further below.
-/

/-- The globals shared between the listener thread and the main loop. -/
structure Shared where
  cameraTransform : Option CameraTransform
  newData : Bool
  running : Bool
deriving DecidableEq

/-- State of the globals at program start (lines 45, 48, 49):
null slot, both flags false. -/
def initialShared : Shared :=
  { cameraTransform := none, newData := false, running := false }

/-- State of the globals right after main has set running to true and
spawned the listener thread (lines 224 and 225). -/
def startedShared : Shared :=
  { initialShared with running := true }

/-- Model of updateCameraTransform (lines 52 to 60): under the mutex,
allocate the record if the pointer is null, then overwrite both
fields.  The net effect on the slot is to store exactly the given
pose. -/
def updateCameraTransform (s : Shared) (transform : Vector3f)
    (rotation : Quaternionf) : Shared :=
  { s with cameraTransform := some { position := transform, rotation := rotation } }

/-- Model of translateCamera (lines 63 to 71): add the translation to
the current position (zero if the slot was null) and overwrite the
rotation.  Present in the source but never called. -/
def translateCamera (s : Shared) (translation : Vector3f)
    (rotation : Quaternionf) : Shared :=
  match s.cameraTransform with
  | none =>
    { s with cameraTransform := some { position := translation, rotation := rotation } }
  | some ct =>
    let moved : Vector3f :=
      { x := ct.position.x + translation.x,
        y := ct.position.y + translation.y,
        z := ct.position.z + translation.z }
    { s with cameraTransform := some { position := moved, rotation := rotation } }

/-- One completed receive_from call: either a datagram with its payload
or a receive error (line 85).  The payload is the full datagram; the
1024-byte receive buffer (line 80) truncates it on arrival. -/
inductive NetEvent where
  | datagram (payload : String)
  | recvError (msg : String)
deriving DecidableEq

/-- Result of handling one received event inside the loop body: either
fall through to the next iteration, or raise an exception that escapes
the loop to the catch at line 114. -/
inductive StepRes where
  | next
  | raise (exc : String)
deriving DecidableEq

/-- The UDP port the socket is bound to (line 76). -/
def serverPort : Nat := 4444

/-- What is left of a datagram after the 1024-byte receive buffer
(line 80): receive_from writes at most 1024 bytes and the string at
line 88 is built from the received length.  All payloads considered
here are ASCII, so bytes are modelled as characters. -/
def truncatePayload (payload : String) : String :=
  String.mk (payload.toList.take 1024)

/-- Model of one iteration body of the receive loop (lines 84 to 112),
given the outcome of the receive_from call.  Returns the new shared
state, the lines printed during the iteration, and whether control
falls through to the next iteration or an exception escapes the loop.

On a datagram: the payload is truncated to the 1024-byte buffer; if
the received length is positive, the payload is printed (line 89) and
decoded (lines 92 to 105); a decode failure raises (the catch is
outside the loop); on success updateCameraTransform stores the pose
(line 107, which also prints at line 53) and then newData is set
(line 109).  A zero-length datagram with no error satisfies neither
branch of the if at lines 87 and 110, so nothing happens.  On a
receive error the message is printed (line 111) and the loop
continues. -/
def processEvent (s : Shared) (ev : NetEvent) :
    Shared × List String × StepRes :=
  match ev with
  | NetEvent.recvError msg =>
    (s, ["Error receiving data: " ++ msg], StepRes.next)
  | NetEvent.datagram payload =>
    let jsonStr := truncatePayload payload
    if jsonStr.length > 0 then
      match decodePayload jsonStr with
      | Except.error e =>
        (s, ["Received JSON: " ++ jsonStr], StepRes.raise e)
      | Except.ok ct =>
        ({ updateCameraTransform s ct.position ct.rotation with newData := true },
         ["Received JSON: " ++ jsonStr, "in updateCameraTransform"],
         StepRes.next)
    else (s, [], StepRes.next)

/-- How the receive loop (lines 83 to 113) ends, for a given finite
sequence of receive outcomes. -/
inductive LoopOutcome where
  | stopped
  | blockedInReceive
  | raised (exc : String)
deriving DecidableEq

/-- Model of the receive loop (lines 83 to 113) run over a finite
sequence of receive outcomes.  Each iteration first checks the running
flag (line 83); the flag is not changed by the loop itself, so this
model covers the executions in which the main thread does not flip it
during the run.  When the event list is exhausted while the flag is
still true, the loop is blocked inside receive_from waiting for the
next datagram (outcome blockedInReceive); there is no receive timeout
in the source. -/
def serverLoopGo (s : Shared) (evs : List NetEvent) :
    Shared × List String × LoopOutcome :=
  if s.running = false then (s, [], LoopOutcome.stopped)
  else
    match evs with
    | [] => (s, [], LoopOutcome.blockedInReceive)
    | ev :: rest =>
      match processEvent s ev with
      | (s1, log1, StepRes.raise e) => (s1, log1, LoopOutcome.raised e)
      | (s1, log1, StepRes.next) =>
        match serverLoopGo s1 rest with
        | (s2, log2, out) => (s2, log1 ++ log2, out)

/-- How the whole server function returns to its caller. -/
inductive ServerExit where
  | stopped
  | blockedInReceive
  | exceptionCaught (what : String)
deriving DecidableEq

/-- True exactly on the exceptionCaught constructor. -/
def ServerExit.isExceptionCaught : ServerExit → Bool
  | ServerExit.exceptionCaught _ => true
  | _ => false

/-- Message of the exception thrown when binding the socket fails
(line 76); the model uses a fixed representative text. -/
def bindFailureMsg : String := "bind: address already in use"

/-- Model of runUDPServer (lines 73 to 117).  The whole body is inside
one try block: constructing the socket binds port 4444 (line 76) and
throws on failure; the bindFails argument selects that outcome.  On a
successful bind the startup line is printed (line 78) and the receive
loop runs.  Any exception thrown inside the loop, and the bind
exception itself, is caught by the single catch at line 114, which
prints the error and lets the function return normally; nothing is
retried and no error value is returned to the caller (the function
returns void). -/
def runUDPServer (bindFails : Bool) (s : Shared) (evs : List NetEvent) :
    Shared × List String × ServerExit :=
  if bindFails then
    (s, ["UDP Server error: " ++ bindFailureMsg],
     ServerExit.exceptionCaught bindFailureMsg)
  else
    match serverLoopGo s evs with
    | (s1, log1, LoopOutcome.raised e) =>
      (s1, ("UDP Server started. Waiting for messages..." :: log1) ++
           ["UDP Server error: " ++ e],
       ServerExit.exceptionCaught e)
    | (s1, log1, LoopOutcome.stopped) =>
      (s1, "UDP Server started. Waiting for messages..." :: log1,
       ServerExit.stopped)
    | (s1, log1, LoopOutcome.blockedInReceive) =>
      (s1, "UDP Server started. Waiting for messages..." :: log1,
       ServerExit.blockedInReceive)

/-- Model of the per-frame consume step of the main loop (lines 243 to
247): if newData is true, clear it and apply the stored pose to the
camera handler, otherwise do nothing.  The second component is the
pose passed to the camera handler, none when no call is made.  The
source dereferences cameraTransform at line 246 with no null check;
the reachability development below shows the flag is true only when
the slot is non-null, and the fine-grained system there models the
dereference explicitly. -/
def tryConsume (s : Shared) : Shared × Option CameraTransform :=
  if s.newData then ({ s with newData := false }, s.cameraTransform)
  else (s, none)

/-!
Lock discipline.  The mutex cameraTransformMutex guards the slot; the
two flags are std atomic booleans accessed outside the mutex.  The
discipline is modelled syntactically: the sequence of shared-memory
actions each thread performs, in program order, with the positions at
which the mutex is held computed from the acquire and release
actions.
-/

/-- One action on the shared state, as it appears in the source. -/
inductive SyncAction where
  | lockAcquire
  | lockRelease
  | slotWrite
  | slotRead
  | flagWrite (b : Bool)
  | flagRead
  | applyPose
deriving DecidableEq

/-- Actions of the listener thread when publishing one successfully
decoded pose, in program order: updateCameraTransform (lines 54 to 59:
the lock_guard acquires, the null check, allocation and both field
assignments access the slot, the guard releases at function exit),
then the store to newData at line 109. -/
def publishActions : List SyncAction :=
  [SyncAction.lockAcquire, SyncAction.slotWrite, SyncAction.lockRelease,
   SyncAction.flagWrite true]

/-- Actions of the main loop in a frame that observes newData true
(lines 243 to 247): read the flag (243), clear it (244), acquire the
lock (245), read the slot and call the camera handler with the values
read (246), release the lock_guard at the closing brace of the if
block (247). -/
def consumeActions : List SyncAction :=
  [SyncAction.flagRead, SyncAction.flagWrite false, SyncAction.lockAcquire,
   SyncAction.slotRead, SyncAction.applyPose, SyncAction.lockRelease]

/-- Contribution of one action to the lock depth. -/
def lockDelta : SyncAction → Int
  | SyncAction.lockAcquire => 1
  | SyncAction.lockRelease => -1
  | _ => 0

/-- Whether the mutex is held by the thread when the action at index i
of its trace executes. -/
def heldAt (tr : List SyncAction) (i : Nat) : Prop :=
  0 < (tr.take i).foldl (fun d a => d + lockDelta a) 0

instance (tr : List SyncAction) (i : Nat) : Decidable (heldAt tr i) :=
  inferInstanceAs (Decidable (0 < (tr.take i).foldl (fun d a => d + lockDelta a) 0))

/-- Accesses to the slot contents. -/
def isSlotAccess : SyncAction → Bool
  | SyncAction.slotWrite => true
  | SyncAction.slotRead => true
  | _ => false

/-- Accesses to the dirty flag. -/
def isFlagAccess : SyncAction → Bool
  | SyncAction.flagWrite _ => true
  | SyncAction.flagRead => true
  | _ => false

/-!
Tick-level model of the listener, used for shutdown timing.  One tick
is one small step of the listener: checking the running flag at the
top of the loop, or one attempt to complete the blocking receive_from
call.  The receive completes only when a network event arrives (the
socket has no receive timeout, is never shut down from outside, and
no interrupt is used in the source), so a tick with no arrival leaves
a listener that is inside receive_from exactly where it was, whatever
the value of the running flag.
-/

/-- Program counter of the listener thread. -/
inductive ListenerPC where
  | loopHead
  | inReceive
  | done (outcome : LoopOutcome)
deriving DecidableEq

/-- Listener state for the tick model. -/
structure ListenerTickState where
  pc : ListenerPC
  shared : Shared
  log : List String
deriving DecidableEq

/-- One tick of the listener (lines 83 to 116): at the top of the loop
the running flag is checked (line 83); inside receive_from the thread
stays blocked until an event arrives (line 85), then handles it, with
an escaping exception caught and printed at lines 114 to 116. -/
def listenerTick (st : ListenerTickState) (arrival : Option NetEvent) :
    ListenerTickState :=
  match st.pc with
  | ListenerPC.done _ => st
  | ListenerPC.loopHead =>
    if st.shared.running = false then
      { st with pc := ListenerPC.done LoopOutcome.stopped }
    else { st with pc := ListenerPC.inReceive }
  | ListenerPC.inReceive =>
    match arrival with
    | none => st
    | some ev =>
      match processEvent st.shared ev with
      | (s1, log1, StepRes.next) =>
        { pc := ListenerPC.loopHead, shared := s1, log := st.log ++ log1 }
      | (s1, log1, StepRes.raise e) =>
        { pc := ListenerPC.done (LoopOutcome.raised e), shared := s1,
          log := st.log ++ log1 ++ ["UDP Server error: " ++ e] }

/-- Iterated ticks over a schedule of arrivals. -/
def listenerTicks (st : ListenerTickState) :
    List (Option NetEvent) → ListenerTickState
  | [] => st
  | a :: rest => listenerTicks (listenerTick st a) rest

/-!
Interleaved two-thread system.  States pair the shared globals with a
program counter for the listener thread and one for the main thread;
steps are the atomic actions of either thread at the granularity of
the individual accesses to the shared globals.  Datagram arrival is
environment nondeterminism carried by the step.
-/

/-- Listener program counter for the interleaved system.  postPublish
is the point between the return of updateCameraTransform (line 107)
and the store to newData (line 109). -/
inductive LPhase where
  | loopHead
  | inReceive
  | postPublish
  | exited
deriving DecidableEq

/-- Main-thread program counter: inside a frame before the check at
line 243; having just read newData as true (line 243); having cleared
it (line 244) and about to lock and dereference; out of the render
loop with running set to false (line 258); past the join (line 259);
or having dereferenced a null cameraTransform at line 246. -/
inductive MPhase where
  | frame
  | sawTrue
  | postClear
  | stopping
  | exited
  | crashed
deriving DecidableEq

/-- State of the interleaved system. -/
structure SysState where
  shared : Shared
  lphase : LPhase
  mphase : MPhase
deriving DecidableEq

/-- State right after main has set running to true, spawned the
listener thread (lines 224 and 225) and entered the render loop. -/
def initSys : SysState :=
  { shared := startedShared, lphase := LPhase.loopHead, mphase := MPhase.frame }

/-- Atomic steps of either thread.  Listener steps follow lines 83 to
116 of the source; a whole receive-decode-publish of one datagram is
split at the points where the shared globals are touched.  Main-loop
steps follow lines 232 to 259. -/
inductive SysStep : SysState → SysState → Prop where
  | lEnterReceive (s : SysState) (hl : s.lphase = LPhase.loopHead)
      (hr : s.shared.running = true) :
      SysStep s { s with lphase := LPhase.inReceive }
  | lExitStopped (s : SysState) (hl : s.lphase = LPhase.loopHead)
      (hr : s.shared.running = false) :
      SysStep s { s with lphase := LPhase.exited }
  | lRecvGood (s : SysState) (payload : String) (ct : CameraTransform)
      (hl : s.lphase = LPhase.inReceive)
      (hd : decodePayload (truncatePayload payload) = Except.ok ct) :
      SysStep s { s with
        shared := updateCameraTransform s.shared ct.position ct.rotation,
        lphase := LPhase.postPublish }
  | lSetFlag (s : SysState) (hl : s.lphase = LPhase.postPublish) :
      SysStep s { s with shared := { s.shared with newData := true },
                         lphase := LPhase.loopHead }
  | lRecvBad (s : SysState) (payload : String)
      (hl : s.lphase = LPhase.inReceive)
      (hlen : (truncatePayload payload).length > 0)
      (hd : decodeFails (truncatePayload payload) = true) :
      SysStep s { s with lphase := LPhase.exited }
  | lRecvEmpty (s : SysState) (hl : s.lphase = LPhase.inReceive) :
      SysStep s { s with lphase := LPhase.loopHead }
  | lRecvErr (s : SysState) (hl : s.lphase = LPhase.inReceive) :
      SysStep s { s with lphase := LPhase.loopHead }
  | mSeeNewData (s : SysState) (hm : s.mphase = MPhase.frame)
      (hn : s.shared.newData = true) :
      SysStep s { s with mphase := MPhase.sawTrue }
  | mClearFlag (s : SysState) (hm : s.mphase = MPhase.sawTrue) :
      SysStep s { s with shared := { s.shared with newData := false },
                         mphase := MPhase.postClear }
  | mApplyPose (s : SysState) (ct : CameraTransform)
      (hm : s.mphase = MPhase.postClear)
      (hs : s.shared.cameraTransform = some ct) :
      SysStep s { s with mphase := MPhase.frame }
  | mDerefNull (s : SysState) (hm : s.mphase = MPhase.postClear)
      (hs : s.shared.cameraTransform = none) :
      SysStep s { s with mphase := MPhase.crashed }
  | mStop (s : SysState) (hm : s.mphase = MPhase.frame) :
      SysStep s { s with shared := { s.shared with running := false },
                         mphase := MPhase.stopping }
  | mJoin (s : SysState) (hm : s.mphase = MPhase.stopping)
      (hl : s.lphase = LPhase.exited) :
      SysStep s { s with mphase := MPhase.exited }

/-- States the program can reach from the start of the subsystem. -/
def SysReachable (s : SysState) : Prop :=
  Relation.ReflTransGen SysStep initSys s

/-!
Basic facts about the model, shared by the verification results
below.
-/

/-- A string of length zero is the empty string. -/
theorem string_length_zero {s : String} (h : s.length = 0) : s = "" := by
  cases s with
  | mk data =>
    cases data with
    | nil => rfl
    | cons c cs => simp [String.length] at h

/-- Decoding the empty payload fails at the parse stage. -/
theorem decodePayload_empty :
    decodePayload "" = Except.error "unexpected end of input" := rfl

/-- The empty payload truncates to itself. -/
theorem truncatePayload_empty : truncatePayload "" = "" := rfl

/-- A receive error is logged and control falls through to the next
iteration, with the shared state untouched. -/
theorem processEvent_recvError (s : Shared) (msg : String) :
    processEvent s (NetEvent.recvError msg) =
      (s, ["Error receiving data: " ++ msg], StepRes.next) := rfl

/-- Handling a datagram whose payload decodes to the pose ct stores
exactly ct in the slot and raises the dirty flag. -/
theorem processEvent_ok (s : Shared) (payload : String) (ct : CameraTransform)
    (h : decodePayload (truncatePayload payload) = Except.ok ct) :
    processEvent s (NetEvent.datagram payload) =
      ({ s with cameraTransform := some ct, newData := true },
       ["Received JSON: " ++ truncatePayload payload, "in updateCameraTransform"],
       StepRes.next) := by
  have hlen : (truncatePayload payload).length > 0 := by
    rcases Nat.eq_zero_or_pos (truncatePayload payload).length with h0 | h0
    · rw [string_length_zero h0, decodePayload_empty] at h
      exact absurd h (by simp)
    · exact h0
  simp [processEvent, hlen, h, updateCameraTransform]

/-- Handling a datagram whose nonempty payload fails to decode leaves
the shared state untouched, logs the payload, and raises the decode
exception out of the loop. -/
theorem processEvent_decodeError (s : Shared) (payload : String) (e : String)
    (hlen : (truncatePayload payload).length > 0)
    (h : decodePayload (truncatePayload payload) = Except.error e) :
    processEvent s (NetEvent.datagram payload) =
      (s, ["Received JSON: " ++ truncatePayload payload], StepRes.raise e) := by
  simp [processEvent, hlen, h]

/-- A zero-length datagram is ignored: no state change, no log line,
loop continues. -/
theorem processEvent_zeroLength (s : Shared) (payload : String)
    (h : payload.length = 0) :
    processEvent s (NetEvent.datagram payload) = (s, [], StepRes.next) := by
  rw [string_length_zero h]
  rfl

/-- Handling one event never changes the running flag. -/
theorem processEvent_running (s : Shared) (ev : NetEvent) :
    ((processEvent s ev).1).running = s.running := by
  cases ev with
  | recvError msg => rfl
  | datagram payload =>
    rcases Nat.eq_zero_or_pos (truncatePayload payload).length with h0 | h0
    · have hp : truncatePayload payload = "" := string_length_zero h0
      simp [processEvent, hp]
    · cases hd : decodePayload (truncatePayload payload) with
      | error e => rw [processEvent_decodeError s payload e h0 hd]
      | ok ct => rw [processEvent_ok s payload ct hd]

/-- The loop exits at once when the running flag is already false. -/
theorem serverLoopGo_not_running (s : Shared) (evs : List NetEvent)
    (h : s.running = false) :
    serverLoopGo s evs = (s, [], LoopOutcome.stopped) := by
  cases evs <;> simp [serverLoopGo, h]

/-- With the running flag true and no event arriving, the loop blocks
inside receive_from. -/
theorem serverLoopGo_nil (s : Shared) (h : s.running = true) :
    serverLoopGo s [] = (s, [], LoopOutcome.blockedInReceive) := by
  simp [serverLoopGo, h]

/-- Unfolding of the loop on one received event. -/
theorem serverLoopGo_cons (s : Shared) (ev : NetEvent) (rest : List NetEvent)
    (h : s.running = true) :
    serverLoopGo s (ev :: rest) =
      (match processEvent s ev with
       | (s1, log1, StepRes.raise e) => (s1, log1, LoopOutcome.raised e)
       | (s1, log1, StepRes.next) =>
         match serverLoopGo s1 rest with
         | (s2, log2, out) => (s2, log1 ++ log2, out)) := by
  simp [serverLoopGo, h]

/-- A tick with no arrival leaves a listener blocked in receive_from
exactly where it was. -/
theorem listenerTick_blocked (st : ListenerTickState)
    (h : st.pc = ListenerPC.inReceive) : listenerTick st none = st := by
  simp [listenerTick, h]

/-- Any number of ticks with no arrival leaves a listener blocked in
receive_from exactly where it was, whatever the running flag says. -/
theorem listenerTicks_none (st : ListenerTickState)
    (h : st.pc = ListenerPC.inReceive) (n : Nat) :
    listenerTicks st (List.replicate n none) = st := by
  induction n with
  | zero => rfl
  | succ n ih =>
    rw [List.replicate_succ]
    show listenerTicks (listenerTick st none) (List.replicate n none) = st
    rw [listenerTick_blocked st h]
    exact ih

/-- Inductive invariant of the interleaved system: whenever the dirty
flag is up, and at every control point from which the main thread goes
on to dereference the slot, the slot is non-null; the main thread is
past the join only once the listener has returned; and the null
dereference at line 246 never happens. -/
def slotInv (s : SysState) : Prop :=
  (s.shared.newData = true → (s.shared.cameraTransform).isSome = true) ∧
  (s.lphase = LPhase.postPublish → (s.shared.cameraTransform).isSome = true) ∧
  (s.mphase = MPhase.sawTrue → (s.shared.cameraTransform).isSome = true) ∧
  (s.mphase = MPhase.postClear → (s.shared.cameraTransform).isSome = true) ∧
  (s.mphase = MPhase.exited → s.lphase = LPhase.exited) ∧
  s.mphase ≠ MPhase.crashed

/-- The invariant holds at the start of the subsystem. -/
theorem slotInv_init : slotInv initSys := by
  refine ⟨?_, ?_, ?_, ?_, ?_, ?_⟩ <;>
    simp [initSys, startedShared, initialShared]

/-- Every step of either thread preserves the invariant. -/
theorem slotInv_step (s s' : SysState) (hs : SysStep s s') (h : slotInv s) :
    slotInv s' := by
  obtain ⟨h1, h2, h3, h4, h5, h6⟩ := h
  cases hs <;>
    (refine ⟨?_, ?_, ?_, ?_, ?_, ?_⟩ <;> simp_all [updateCameraTransform])

/-- The invariant holds in every reachable state. -/
theorem slotInv_reachable (s : SysState) (h : SysReachable s) : slotInv s := by
  induction h with
  | refl => exact slotInv_init
  | tail hab hbc ih => exact slotInv_step _ _ hbc ih

/-- Once the main thread has joined the listener, neither thread can
take any further step: the system is quiescent, so in particular no
shared-slot access happens after the join. -/
theorem no_step_after_join (s s' : SysState) (h : SysReachable s)
    (hm : s.mphase = MPhase.exited) : ¬ SysStep s s' := by
  intro hstep
  have hinv := slotInv_reachable s h
  have hl : s.lphase = LPhase.exited := hinv.2.2.2.2.1 hm
  cases hstep <;> simp_all

/-!
Concrete messages used in the scenarios below.  Brace characters in
string literals are written with hex escapes.
-/

/-- The valid example message of the specification scenario. -/
def examplePoseMsg : String :=
  "\x7b\"position\":\x7b\"x\":1,\"y\":2,\"z\":3\x7d,\"rotation\":\x7b\"w\":1,\"x\":0,\"y\":0,\"z\":0\x7d\x7d"

/-- The pose carried by examplePoseMsg: position (1,2,3), identity
orientation. -/
def examplePose : CameraTransform :=
  { position := { x := 1, y := 2, z := 3 },
    rotation := { w := 1, x := 0, y := 0, z := 0 } }

/-- The malformed example packet of the specification: y, z and the
whole rotation object are missing. -/
def exampleBadMsg : String := "\x7b\"position\":\x7b\"x\":1\x7d\x7d"

/-- A second valid message, for last-write-wins scenarios. -/
def secondPoseMsg : String :=
  "\x7b\"position\":\x7b\"x\":4,\"y\":5,\"z\":6\x7d,\"rotation\":\x7b\"w\":0,\"x\":0,\"y\":1,\"z\":0\x7d\x7d"

/-- The pose carried by secondPoseMsg. -/
def secondPose : CameraTransform :=
  { position := { x := 4, y := 5, z := 6 },
    rotation := { w := 0, x := 0, y := 1, z := 0 } }

/-- The pose a received event carries, if its payload decodes. -/
def eventPose : NetEvent → Option CameraTransform
  | NetEvent.datagram payload => (decodePayload (truncatePayload payload)).toOption
  | NetEvent.recvError _ => none

/-!
Verification results for the specified properties.
-/

/-- C1 counterexample.  The claim says a malformed datagram is logged
and the receive loop continues, with a subsequent valid message still
decoded and published.  Concretely: with a malformed first datagram
followed by the valid example message, the run ends with the parse
exception caught outside the loop, and the valid message is never
published: the slot is still null and the dirty flag still clear. -/
theorem malformed_datagram_kills_listener :
    (runUDPServer false startedShared
        [NetEvent.datagram "oops", NetEvent.datagram examplePoseMsg]).2.2 =
      ServerExit.exceptionCaught "unexpected character" ∧
    (runUDPServer false startedShared
        [NetEvent.datagram "oops", NetEvent.datagram examplePoseMsg]).1.cameraTransform
      = none ∧
    (runUDPServer false startedShared
        [NetEvent.datagram "oops", NetEvent.datagram examplePoseMsg]).1.newData
      = false := by
  decide

/-- C1 as amended.  On a malformed nonempty datagram the parse or
field-access exception escapes the receive loop: the payload is
printed, the error is logged once by the catch outside the loop, the
listener returns with the shared state unchanged, and no later event
of the run is processed. -/
theorem malformed_datagram_logged_and_loop_terminates
    (s : Shared) (payload : String) (rest : List NetEvent) (e : String)
    (hrun : s.running = true)
    (hlen : (truncatePayload payload).length > 0)
    (hdec : decodePayload (truncatePayload payload) = Except.error e) :
    runUDPServer false s (NetEvent.datagram payload :: rest) =
      (s, ["UDP Server started. Waiting for messages...",
           "Received JSON: " ++ truncatePayload payload,
           "UDP Server error: " ++ e],
       ServerExit.exceptionCaught e) := by
  simp [runUDPServer, serverLoopGo_cons _ _ _ hrun,
        processEvent_decodeError s payload e hlen hdec]

/-- C1 witness: the amended statement at the malformed example packet
of the specification. -/
theorem malformed_datagram_logged_and_loop_terminates_witness :
    runUDPServer false startedShared [NetEvent.datagram exampleBadMsg] =
      (startedShared,
       ["UDP Server started. Waiting for messages...",
        "Received JSON: " ++ truncatePayload exampleBadMsg,
        "UDP Server error: " ++ "type must be number"],
       ServerExit.exceptionCaught "type must be number") :=
  malformed_datagram_logged_and_loop_terminates startedShared exampleBadMsg []
    "type must be number" rfl (by decide) (by decide)

/-- C2 counterexample.  The claim says both executors touch the dirty
flag only inside the mutex critical section, the publisher sets the
flag before releasing the lock, and the consumer applies the pose
after releasing it.  In the actual traces: the publisher writes true
to the flag at index 3, after its lock release; the consumer clears
the flag at index 1, before its lock acquisition; and the consumer
calls the camera handler at index 4, while still holding the lock. -/
theorem flag_accessed_outside_lock :
    publishActions.getD 3 SyncAction.lockAcquire = SyncAction.flagWrite true ∧
    ¬ heldAt publishActions 3 ∧
    consumeActions.getD 1 SyncAction.lockAcquire = SyncAction.flagWrite false ∧
    ¬ heldAt consumeActions 1 ∧
    consumeActions.getD 4 SyncAction.lockAcquire = SyncAction.applyPose ∧
    heldAt consumeActions 4 := by
  decide

/-- C2 as amended.  Both executors access the slot contents only while
holding the mutex; the dirty flag, an atomic boolean, is always
accessed outside the critical section (set by the publisher after its
release, read and cleared by the consumer before its acquisition); and
the consumer applies the pose to the camera handler while still
holding the lock, not after releasing it. -/
theorem lock_discipline_actual :
    (∀ i : Fin publishActions.length,
       isSlotAccess (publishActions.get i) = true → heldAt publishActions i) ∧
    (∀ i : Fin consumeActions.length,
       isSlotAccess (consumeActions.get i) = true → heldAt consumeActions i) ∧
    (∀ i : Fin publishActions.length,
       isFlagAccess (publishActions.get i) = true → ¬ heldAt publishActions i) ∧
    (∀ i : Fin consumeActions.length,
       isFlagAccess (consumeActions.get i) = true → ¬ heldAt consumeActions i) ∧
    consumeActions.getD 4 SyncAction.lockAcquire = SyncAction.applyPose ∧
    heldAt consumeActions 4 := by
  decide

/-- C2 witness: the slot write of the publisher happens under the
lock, the flag clear of the consumer happens outside it. -/
theorem lock_discipline_actual_witness :
    heldAt publishActions 1 ∧ ¬ heldAt consumeActions 1 :=
  ⟨lock_discipline_actual.1 ⟨1, by decide⟩ (by decide),
   lock_discipline_actual.2.2.2.1 ⟨1, by decide⟩ (by decide)⟩

/-- Listener blocked inside receive_from after a stop request: the
running flag is already false. -/
def blockedAfterStop : ListenerTickState :=
  { pc := ListenerPC.inReceive,
    shared := { cameraTransform := none, newData := false, running := false },
    log := [] }

/-- C3 counterexample.  The claim says the loop observes the cleared
running flag within a bounded time (at most one receive-timeout
interval, via timeout, socket shutdown or interrupt).  The socket has
no receive timeout and is never shut down or interrupted: fifty ticks
after Stop has set the flag false, with no datagram arriving, the
listener is still blocked inside receive_from and has not returned. -/
theorem stop_not_observed_while_receive_blocks :
    (listenerTicks blockedAfterStop (List.replicate 50 none)).pc =
      ListenerPC.inReceive := by
  decide

/-- C3 as amended.  The listener checks the running flag only at the
top of each iteration, reached only when the blocking receive_from
returns, which happens only when a datagram or receive error arrives:
with no arrival the listener stays blocked for any number of ticks,
whatever the flag says; once any non-raising event arrives after the
flag is false, the loop exits at the next check; and after the main
thread has joined the listener, no step of either thread (hence no
shared-slot access) is possible any more. -/
theorem stop_observed_only_after_next_receive :
    (∀ (st : ListenerTickState) (n : Nat), st.pc = ListenerPC.inReceive →
       listenerTicks st (List.replicate n none) = st) ∧
    (∀ (st : ListenerTickState) (ev : NetEvent),
       st.pc = ListenerPC.inReceive →
       st.shared.running = false →
       (processEvent st.shared ev).2.2 = StepRes.next →
       (listenerTicks st [some ev, none]).pc =
         ListenerPC.done LoopOutcome.stopped) ∧
    (∀ s s' : SysState, SysReachable s → s.mphase = MPhase.exited →
       ¬ SysStep s s') := by
  refine ⟨fun st n h => listenerTicks_none st h n, ?_, no_step_after_join⟩
  intro st ev hpc hrun hnext
  rcases hp : processEvent st.shared ev with ⟨s1, log1, r⟩
  have hr : r = StepRes.next := by rw [hp] at hnext; exact hnext
  subst hr
  have h1 : listenerTick st (some ev) =
      { pc := ListenerPC.loopHead, shared := s1, log := st.log ++ log1 } := by
    simp [listenerTick, hpc, hp]
  have hs1run : s1.running = false := by
    have h2 := processEvent_running st.shared ev
    rw [hp] at h2
    exact h2.trans hrun
  show (listenerTick (listenerTick st (some ev)) none).pc = _
  rw [h1]
  simp [listenerTick, hs1run]

/-- Intermediate shutdown state: main has set running to false and is
about to join; the listener is still at the top of its loop. -/
def shutdownS1 : SysState :=
  { shared := { cameraTransform := none, newData := false, running := false },
    lphase := LPhase.loopHead, mphase := MPhase.stopping }

/-- Intermediate shutdown state: the listener has observed the cleared
flag and returned. -/
def shutdownS2 : SysState :=
  { shutdownS1 with lphase := LPhase.exited }

/-- Quiescent state after shutdown: the listener has returned and the
main thread has joined it. -/
def joinedState : SysState :=
  { shutdownS2 with mphase := MPhase.exited }

/-- The quiescent post-join state is reachable. -/
theorem joinedState_reachable : SysReachable joinedState :=
  Relation.ReflTransGen.tail
    (Relation.ReflTransGen.tail
      (Relation.ReflTransGen.tail Relation.ReflTransGen.refl
        (show SysStep initSys shutdownS1 from SysStep.mStop initSys rfl))
      (show SysStep shutdownS1 shutdownS2 from
        SysStep.lExitStopped shutdownS1 rfl rfl))
    (show SysStep shutdownS2 joinedState from
      SysStep.mJoin shutdownS2 rfl rfl)

/-- C3 witness: the amended statement at concrete inputs, with a
receive error as the event that wakes the blocked receive. -/
theorem stop_observed_only_after_next_receive_witness :
    listenerTicks blockedAfterStop (List.replicate 3 none) = blockedAfterStop ∧
    (listenerTicks blockedAfterStop
        [some (NetEvent.recvError "interrupted"), none]).pc =
      ListenerPC.done LoopOutcome.stopped ∧
    ¬ SysStep joinedState initSys :=
  ⟨stop_observed_only_after_next_receive.1 blockedAfterStop 3 rfl,
   stop_observed_only_after_next_receive.2.1 blockedAfterStop
     (NetEvent.recvError "interrupted") rfl rfl rfl,
   stop_observed_only_after_next_receive.2.2 joinedState initSys
     joinedState_reachable rfl⟩

/-- State reached by the loop after one successfully decoded datagram:
the rest of the run continues from the updated shared state. -/
theorem serverLoopGo_cons_ok_fst (s : Shared) (m : String)
    (ct : CameraTransform) (rest : List NetEvent)
    (hrun : s.running = true)
    (h : decodePayload (truncatePayload m) = Except.ok ct) :
    (serverLoopGo s (NetEvent.datagram m :: rest)).1 =
      (serverLoopGo { s with cameraTransform := some ct, newData := true }
        rest).1 := by
  rw [serverLoopGo_cons _ _ _ hrun, processEvent_ok s m ct h]

/-- Running the loop over a nonempty sequence of datagrams that all
decode leaves the slot holding exactly the last pose, with the dirty
flag up and the rest of the state untouched. -/
theorem serverLoop_datagrams_final (msgs : List String)
    (poses : List CameraTransform)
    (hdec : List.Forall₂
      (fun m p => decodePayload (truncatePayload m) = Except.ok p) msgs poses) :
    ∀ (s : Shared) (lastp : CameraTransform), s.running = true →
      poses.getLast? = some lastp →
      (serverLoopGo s (msgs.map NetEvent.datagram)).1 =
        { s with cameraTransform := some lastp, newData := true } := by
  induction hdec with
  | nil =>
    intro s lastp _ hlast
    simp at hlast
  | @cons m p msgs2 poses2 hmp htail ih =>
    intro s lastp hrun hlast
    rw [List.map_cons, serverLoopGo_cons_ok_fst s m p _ hrun hmp]
    cases htail with
    | nil =>
      have hp : p = lastp := by simpa using hlast
      subst hp
      rw [List.map_nil,
          serverLoopGo_nil { s with cameraTransform := some p, newData := true }
            (by simpa using hrun)]
    | @cons m2 p2 msgs3 poses3 hmp2 htail2 =>
      have hlast2 : (p2 :: poses3).getLast? = some lastp := by
        rwa [List.getLast?_cons_cons] at hlast
      exact ih { s with cameraTransform := some p, newData := true }
        lastp (by simpa using hrun) hlast2

/-- C4.  For every nonempty sequence of valid messages handled before
a single consume, the slot ends holding exactly the pose of the last
message, both fields together, and the consume step then applies
exactly that pose to the camera handler; intermediate poses are
silently superseded. -/
theorem last_write_wins (msgs : List String) (poses : List CameraTransform)
    (s : Shared) (lastp : CameraTransform)
    (hrun : s.running = true)
    (hdec : List.Forall₂
      (fun m p => decodePayload (truncatePayload m) = Except.ok p) msgs poses)
    (hlast : poses.getLast? = some lastp) :
    (serverLoopGo s (msgs.map NetEvent.datagram)).1 =
      { s with cameraTransform := some lastp, newData := true } ∧
    tryConsume (serverLoopGo s (msgs.map NetEvent.datagram)).1 =
      ({ s with cameraTransform := some lastp, newData := false }, some lastp) := by
  have hfin := serverLoop_datagrams_final msgs poses hdec s lastp hrun hlast
  refine ⟨hfin, ?_⟩
  rw [hfin]
  simp [tryConsume]

/-- C4 witness: two valid messages before one consume; the consumer
observes the second pose only. -/
theorem last_write_wins_witness :
    (serverLoopGo startedShared
        ([examplePoseMsg, secondPoseMsg].map NetEvent.datagram)).1 =
      { startedShared with cameraTransform := some secondPose, newData := true } ∧
    tryConsume (serverLoopGo startedShared
        ([examplePoseMsg, secondPoseMsg].map NetEvent.datagram)).1 =
      ({ startedShared with cameraTransform := some secondPose, newData := false },
       some secondPose) :=
  last_write_wins [examplePoseMsg, secondPoseMsg] [examplePose, secondPose]
    startedShared secondPose rfl
    (List.Forall₂.cons (by decide)
      (List.Forall₂.cons (by decide) List.Forall₂.nil))
    (by decide)

/-- C5.  When the dirty flag is false the consume step does nothing
and changes nothing; after the valid example message the next consume
applies position (1,2,3) with identity orientation and clears the
flag; a second immediate consume applies nothing and changes
nothing. -/
theorem tryConsume_scenario :
    (∀ s : Shared, s.newData = false → tryConsume s = (s, none)) ∧
    processEvent startedShared (NetEvent.datagram examplePoseMsg) =
      ({ startedShared with cameraTransform := some examplePose, newData := true },
       ["Received JSON: " ++ examplePoseMsg, "in updateCameraTransform"],
       StepRes.next) ∧
    tryConsume { startedShared with cameraTransform := some examplePose,
                                    newData := true } =
      ({ startedShared with cameraTransform := some examplePose, newData := false },
       some examplePose) ∧
    tryConsume { startedShared with cameraTransform := some examplePose,
                                    newData := false } =
      ({ startedShared with cameraTransform := some examplePose, newData := false },
       none) := by
  refine ⟨?_, by decide, by decide, by decide⟩
  intro s h
  simp [tryConsume, h]

/-- C5 witness: the no-update branch at the freshly started state. -/
theorem tryConsume_scenario_witness :
    tryConsume startedShared = (startedShared, none) :=
  tryConsume_scenario.1 startedShared rfl

/-- C6.  Handling a datagram whose payload does not decode (missing
field, wrong type, truncated or unparseable JSON, or empty) leaves the
whole shared state exactly as it was: the slot keeps its previous
value and the dirty flag is not raised. -/
theorem malformed_leaves_shared_state_unchanged (s : Shared) (payload : String)
    (h : decodeFails (truncatePayload payload) = true) :
    (processEvent s (NetEvent.datagram payload)).1 = s := by
  rcases hd : decodePayload (truncatePayload payload) with e | ct
  · rcases Nat.eq_zero_or_pos (truncatePayload payload).length with h0 | h0
    · have hp : truncatePayload payload = "" := string_length_zero h0
      simp [processEvent, hp]
    · rw [processEvent_decodeError s payload e h0 hd]
  · rw [decodeFails, hd] at h
    exact absurd h (by simp)

/-- C6 witness: the malformed example packet against a state already
holding a pose. -/
theorem malformed_leaves_shared_state_unchanged_witness :
    (processEvent
        { cameraTransform := some examplePose, newData := false, running := true }
        (NetEvent.datagram exampleBadMsg)).1 =
      { cameraTransform := some examplePose, newData := false, running := true } :=
  malformed_leaves_shared_state_unchanged
    { cameraTransform := some examplePose, newData := false, running := true }
    exampleBadMsg (by decide)

/-- C7 counterexample.  The claim says a bind failure surfaces to the
caller as a startup error while all other listener-side errors are
handled locally inside the loop.  Concretely: with the bind failing,
the server function merely logs and returns with the state unchanged,
indistinguishable to the caller from any other caught exception, and
the queued valid message is never served; and a malformed datagram, a
non-bind listener-side error, ends the server through the very same
catch instead of being handled locally inside the loop. -/
theorem bind_failure_and_parse_failure_same_handling :
    (runUDPServer true startedShared
        [NetEvent.datagram examplePoseMsg]).2.2.isExceptionCaught = true ∧
    (runUDPServer true startedShared [NetEvent.datagram examplePoseMsg]).1 =
      startedShared ∧
    (runUDPServer false startedShared
        [NetEvent.datagram "oops"]).2.2.isExceptionCaught = true := by
  decide

/-- C7 as amended.  A bind failure is fatal to the listener: it is
logged once and the server function returns at once, with no retry and
no datagram ever processed; however it is reported only on the log,
not returned to the caller.  Receive errors are handled locally inside
the loop (logged, loop continues), but malformed-message errors are
not: they too end the server through the single catch outside the
loop. -/
theorem bind_failure_fatal_but_only_logged :
    (∀ (s : Shared) (evs : List NetEvent),
       runUDPServer true s evs =
         (s, ["UDP Server error: " ++ bindFailureMsg],
          ServerExit.exceptionCaught bindFailureMsg)) ∧
    (∀ (s : Shared) (msg : String) (rest : List NetEvent), s.running = true →
       serverLoopGo s (NetEvent.recvError msg :: rest) =
         ((serverLoopGo s rest).1,
          ("Error receiving data: " ++ msg) :: (serverLoopGo s rest).2.1,
          (serverLoopGo s rest).2.2)) ∧
    (∀ (s : Shared) (payload : String) (rest : List NetEvent) (e : String),
       s.running = true → (truncatePayload payload).length > 0 →
       decodePayload (truncatePayload payload) = Except.error e →
       (runUDPServer false s (NetEvent.datagram payload :: rest)).2.2 =
         ServerExit.exceptionCaught e) := by
  refine ⟨fun s evs => rfl, ?_, ?_⟩
  · intro s msg rest hrun
    rw [serverLoopGo_cons _ _ _ hrun, processEvent_recvError]
    rcases h2 : serverLoopGo s rest with ⟨s2, log2, out⟩
    simp [h2]
  · intro s payload rest e hrun hlen hdec
    simp [runUDPServer, serverLoopGo_cons _ _ _ hrun,
          processEvent_decodeError s payload e hlen hdec]

/-- C7 witness: the amended statement at concrete inputs. -/
theorem bind_failure_fatal_but_only_logged_witness :
    runUDPServer true startedShared [] =
      (startedShared, ["UDP Server error: " ++ bindFailureMsg],
       ServerExit.exceptionCaught bindFailureMsg) ∧
    serverLoopGo startedShared [NetEvent.recvError "interrupted"] =
      ((serverLoopGo startedShared []).1,
       ("Error receiving data: " ++ "interrupted") ::
         (serverLoopGo startedShared []).2.1,
       (serverLoopGo startedShared []).2.2) ∧
    (runUDPServer false startedShared
        [NetEvent.datagram exampleBadMsg]).2.2 =
      ServerExit.exceptionCaught "type must be number" :=
  ⟨bind_failure_fatal_but_only_logged.1 startedShared [],
   bind_failure_fatal_but_only_logged.2.1 startedShared "interrupted" [] rfl,
   bind_failure_fatal_but_only_logged.2.2 startedShared exampleBadMsg []
     "type must be number" rfl (by decide) (by decide)⟩

/-- C8.  The slot is null before any message is received; handling an
event stores exactly the decoded pose when the payload decodes and
leaves the slot untouched otherwise (so the slot is created by the
first successful decode and overwritten by every later one); and the
consume step never changes the slot. -/
theorem slot_lifecycle :
    initialShared.cameraTransform = none ∧
    (∀ (s : Shared) (ev : NetEvent),
       (processEvent s ev).1.cameraTransform =
         (match eventPose ev with
          | some ct => some ct
          | none => s.cameraTransform)) ∧
    (∀ s : Shared, (tryConsume s).1.cameraTransform = s.cameraTransform) := by
  refine ⟨rfl, ?_, ?_⟩
  · intro s ev
    cases ev with
    | recvError msg => rfl
    | datagram payload =>
      rcases hd : decodePayload (truncatePayload payload) with e | ct
      · rcases Nat.eq_zero_or_pos (truncatePayload payload).length with h0 | h0
        · have hp : truncatePayload payload = "" := string_length_zero h0
          simp [processEvent, hp, eventPose, hd, Except.toOption,
                decodePayload_empty]
        · rw [processEvent_decodeError s payload e h0 hd]
          simp [eventPose, hd, Except.toOption]
      · rw [processEvent_ok s payload ct hd]
        simp [eventPose, hd, Except.toOption]
  · intro s
    by_cases h : s.newData <;> simp [tryConsume, h]

/-- C9.  In every reachable state of the interleaved system, if the
dirty flag is up then the shared slot is non-null, and the null
dereference of the consumer never happens: the flag is only set after
a publish has created the slot, and the slot never returns to null. -/
theorem dirty_flag_implies_slot_nonnull (s : SysState) (h : SysReachable s) :
    (s.shared.newData = true → (s.shared.cameraTransform).isSome = true) ∧
    s.mphase ≠ MPhase.crashed :=
  ⟨(slotInv_reachable s h).1, (slotInv_reachable s h).2.2.2.2.2⟩

/-- State after the listener has entered its receive. -/
def publishedS1 : SysState := { initSys with lphase := LPhase.inReceive }

/-- State after the listener has decoded the example message and
published the pose, before setting the flag. -/
def publishedS2 : SysState :=
  { shared := { cameraTransform := some examplePose, newData := false,
                running := true },
    lphase := LPhase.postPublish, mphase := MPhase.frame }

/-- State after the listener has also set the dirty flag. -/
def publishedS3 : SysState :=
  { shared := { cameraTransform := some examplePose, newData := true,
                running := true },
    lphase := LPhase.loopHead, mphase := MPhase.frame }

/-- The published state with the flag up is reachable. -/
theorem publishedS3_reachable : SysReachable publishedS3 :=
  Relation.ReflTransGen.tail
    (Relation.ReflTransGen.tail
      (Relation.ReflTransGen.tail Relation.ReflTransGen.refl
        (show SysStep initSys publishedS1 from
          SysStep.lEnterReceive initSys rfl rfl))
      (show SysStep publishedS1 publishedS2 from
        SysStep.lRecvGood publishedS1 examplePoseMsg examplePose rfl (by decide)))
    (show SysStep publishedS2 publishedS3 from
      SysStep.lSetFlag publishedS2 rfl)

/-- C9 witness: at the reachable state with the flag up, the slot is
non-null and the consumer has not crashed. -/
theorem dirty_flag_implies_slot_nonnull_witness :
    (publishedS3.shared.cameraTransform).isSome = true ∧
    publishedS3.mphase ≠ MPhase.crashed :=
  ⟨(dirty_flag_implies_slot_nonnull publishedS3 publishedS3_reachable).1 rfl,
   (dirty_flag_implies_slot_nonnull publishedS3 publishedS3_reachable).2⟩

/-- C10.  A datagram received without error but with zero length
satisfies neither branch of the if at lines 87 and 110: nothing is
logged, the shared state is untouched, and the loop goes straight on
to the next receive. -/
theorem zero_length_datagram_ignored (s : Shared) (payload : String)
    (rest : List NetEvent) (h : payload.length = 0) :
    processEvent s (NetEvent.datagram payload) = (s, [], StepRes.next) ∧
    serverLoopGo s (NetEvent.datagram payload :: rest) = serverLoopGo s rest := by
  refine ⟨processEvent_zeroLength s payload h, ?_⟩
  cases hrun : s.running with
  | false => rw [serverLoopGo_not_running s _ hrun, serverLoopGo_not_running s rest hrun]
  | true =>
    rw [serverLoopGo_cons _ _ _ hrun, processEvent_zeroLength s payload h]
    rcases hsg : serverLoopGo s rest with ⟨s2, log2, out⟩
    simp [hsg]

/-- C10 witness: the empty datagram between other traffic. -/
theorem zero_length_datagram_ignored_witness :
    processEvent startedShared (NetEvent.datagram "") =
      (startedShared, [], StepRes.next) ∧
    serverLoopGo startedShared
        (NetEvent.datagram "" :: [NetEvent.recvError "x"]) =
      serverLoopGo startedShared [NetEvent.recvError "x"] :=
  zero_length_datagram_ignored startedShared "" [NetEvent.recvError "x"] rfl
